import Mathlib

/-!
Verification of the launcher script `launch_gemma_api.py`.

The script resolves a model path relative to its own directory, checks the
file exists, attempts the server-library imports, sets three GPU-disabling
environment-variable defaults, computes thread-pool sizes from the detected
CPU count, builds a server-settings and a model-settings record, constructs
the app and hands it to the HTTP runner.  We embed `main` as a pure function
from host facts (filesystem state, library availability, CPU count, initial
environment) to a trace of observable events plus the final environment,
exit status, and the configuration objects handed to app construction.
-/

/-- A process environment: a partial map from variable names to values. -/
def Env : Type := String → Option String

/-- Python's `os.environ.setdefault(k, v)`: store `v` at `k` only when `k`
is absent; an existing binding is left untouched. -/
def setdefault (e : Env) (k v : String) : Env :=
  fun q => if q = k then some ((e k).getD v) else e q

/-- The keyword arguments passed to `ServerSettings(...)` at lines 48-53,
together with the TLS fields the library defaults (the launcher never sets
them, and later reads them back for `uvicorn.run`). -/
structure ServerSettings where
  host : String
  port : Nat
  interrupt_requests : Bool
  ssl_keyfile : Option String
  ssl_certfile : Option String
deriving DecidableEq

/-- The keyword arguments passed to `ModelSettings(...)` at lines 55-74. -/
structure ModelSettings where
  model : String
  model_alias : String
  chat_format : String
  n_ctx : Nat
  n_gpu_layers : Nat
  n_threads : Nat
  n_threads_batch : Nat
  n_batch : Nat
  n_ubatch : Nat
  use_mmap : Bool
  use_mlock : Bool
  cache : Bool
  cache_type : String
  cache_size : Nat
  offload_kqv : Bool
  flash_attn : Bool
  logits_all : Bool
  verbose : Bool
deriving DecidableEq

/-- Observable actions of the launcher, in program order. -/
inductive Event where
  | printErr (msg : String)
  | libImport (name : String)
  | setEnvDefault (key val : String)
  | createApp (ss : ServerSettings) (ms : ModelSettings)
  | runServer (host : String) (port : Nat) (logLevel : String)
      (sslKey sslCert : Option String)
deriving DecidableEq

/-- Host facts the launcher reads: whether the model file exists at the
resolved path, whether the server-library imports succeed, the value of
`multiprocessing.cpu_count()`, and the initial environment. -/
structure Host where
  modelFileExists : Bool
  importOk : Bool
  cpu_count : Nat
  env : Env

/-- Everything a run of `main` produces: the ordered event trace, the final
environment, the exit status (`some 1` on the two fatal paths, `none` when
control reaches the non-returning server run), and the pair of
configuration objects handed to `create_app` when one is built. -/
structure RunResult where
  events : List Event
  finalEnv : Env
  exitStatus : Option Nat
  app : Option (ServerSettings × ModelSettings)

/-- Line 21: `project_root / "Model" / "gemma-3-270m-it-Q8_0.gguf"`. -/
def model_path (projectRoot : String) : String :=
  projectRoot ++ "/Model/gemma-3-270m-it-Q8_0.gguf"

/-- Line 24: the diagnostic for a missing model file. -/
def missingModelMsg (projectRoot : String) : String :=
  "[!] Model file not found: " ++ model_path projectRoot

/-- The remediation command quoted inside the missing-dependency message. -/
def pipInstallCmd : String :=
  "pip install \"llama-cpp-python[server]\""

/-- Lines 32-36: the diagnostic printed when the server-library imports
fail. -/
def missingDepMsg : String :=
  "[!] Missing dependency: llama-cpp-python with server extras.\n" ++
    "    Install it with: " ++ pipInstallCmd

/-- Line 46: `max(cpu_count - 1, 1)`.  Over `Nat` this agrees with the
Python expression for every count `multiprocessing.cpu_count` can return
(it is always at least 1; truncated subtraction only differs at 0, where
both sides still give 1). -/
def inference_threads (cpu_count : Nat) : Nat :=
  max (cpu_count - 1) 1

/-- Lines 48-53: the server-settings record.  `sslKeyDefault` and
`sslCertDefault` stand for the external library's defaults for the two TLS
fields the launcher does not pass. -/
def mkServerSettings (sslKeyDefault sslCertDefault : Option String) :
    ServerSettings where
  host := "127.0.0.1"
  port := 54546
  interrupt_requests := true
  ssl_keyfile := sslKeyDefault
  ssl_certfile := sslCertDefault

/-- Lines 55-74: the model-settings record, from the resolved model path
and the detected CPU count. -/
def mkModelSettings (mp : String) (cpu_count : Nat) : ModelSettings where
  model := mp
  model_alias := "gemma-3-270m-it"
  chat_format := "gemma"
  n_ctx := 32768
  n_gpu_layers := 0
  n_threads := inference_threads cpu_count
  n_threads_batch := cpu_count
  n_batch := 1024
  n_ubatch := 1024
  use_mmap := true
  use_mlock := false
  cache := true
  cache_type := "ram"
  cache_size := 4 <<< 30
  offload_kqv := false
  flash_attn := false
  logits_all := false
  verbose := true

/-- The body of `main` (lines 19-91) as a pure function of the host facts.
Program order is kept exactly: model-file check, server-library imports,
the three `setdefault` calls, thread computation, settings construction,
`create_app`, the `uvicorn` import, and `uvicorn.run` with the host, port
and TLS values read back from the server-settings object. -/
def launcherMain (sslKeyDefault sslCertDefault : Option String)
    (projectRoot : String) (h : Host) : RunResult :=
  if !h.modelFileExists then
    { events := [Event.printErr (missingModelMsg projectRoot)]
      finalEnv := h.env
      exitStatus := some 1
      app := none }
  else if !h.importOk then
    { events := [Event.printErr missingDepMsg]
      finalEnv := h.env
      exitStatus := some 1
      app := none }
  else
    let env1 := setdefault h.env "LLAMA_CUBLAS" "0"
    let env2 := setdefault env1 "LLAMA_METAL" "0"
    let env3 := setdefault env2 "CUDA_VISIBLE_DEVICES" "-1"
    let ss := mkServerSettings sslKeyDefault sslCertDefault
    let ms := mkModelSettings (model_path projectRoot) h.cpu_count
    { events :=
        [Event.libImport "llama_cpp.server.app",
         Event.libImport "llama_cpp.server.settings",
         Event.setEnvDefault "LLAMA_CUBLAS" "0",
         Event.setEnvDefault "LLAMA_METAL" "0",
         Event.setEnvDefault "CUDA_VISIBLE_DEVICES" "-1",
         Event.createApp ss ms,
         Event.libImport "uvicorn",
         Event.runServer ss.host ss.port "info" ss.ssl_keyfile
           ss.ssl_certfile]
      finalEnv := env3
      exitStatus := none
      app := some (ss, ms) }

/-- Recognises the successful imports of the inference/server library
(the `llama_cpp.server` modules, line 29-30). -/
def isInferenceImport : Event → Bool
  | Event.libImport n =>
      n == "llama_cpp.server.app" || n == "llama_cpp.server.settings"
  | _ => false

/-- Recognises the three GPU-backend-disabling defaults (lines 40-42). -/
def isGpuEnvDefault : Event → Bool
  | Event.setEnvDefault k _ =>
      k == "LLAMA_CUBLAS" || k == "LLAMA_METAL" ||
        k == "CUDA_VISIBLE_DEVICES"
  | _ => false

/-- Recognises the app-construction step (line 76). -/
def isCreateApp : Event → Bool
  | Event.createApp _ _ => true
  | _ => false

/-- Recognises the blocking server-run step (line 84). -/
def isRunServer : Event → Bool
  | Event.runServer _ _ _ _ _ => true
  | _ => false

/-- The ordering asserted by the spec: in the given trace, no successful
inference-library import happens strictly before the first GPU-disabling
environment default is applied. -/
def noInferenceImportBeforeGpuDefaults (es : List Event) : Prop :=
  (es.takeWhile (fun e => !(isGpuEnvDefault e))).any isInferenceImport
    = false

/-- A concrete host used for counterexamples and witnesses: model present,
library importable, 4 logical CPUs, empty environment. -/
def host0 : Host where
  modelFileExists := true
  importOk := true
  cpu_count := 4
  env := fun _ => none

/-- A second concrete host: 8 logical CPUs, empty environment. -/
def host8 : Host where
  modelFileExists := true
  importOk := true
  cpu_count := 4 + 4
  env := fun _ => none

/-- A third concrete host: 4 logical CPUs, an environment in which one of
the GPU variables is already bound by the caller. -/
def hostPre : Host where
  modelFileExists := true
  importOk := true
  cpu_count := 4
  env := fun k => if k = "LLAMA_METAL" then some "1" else none

/-- What the spec requires of one GPU variable `k` with disabled value
`dv`: absent in `e` means the final environment `E` holds `dv`; present
with caller value `v` means `E` still holds `v`. -/
def gpuDefaultSpec (e E : Env) (k dv : String) : Prop :=
  (e k = none → E k = some dv) ∧ ∀ v, e k = some v → E k = some v

/-- On the successful path the final environment is the three-fold
`setdefault` of the initial one. -/
lemma finalEnv_eq (sslK sslC : Option String) (root : String) (h : Host)
    (hm : h.modelFileExists = true) (hi : h.importOk = true) :
    (launcherMain sslK sslC root h).finalEnv =
      setdefault (setdefault (setdefault h.env "LLAMA_CUBLAS" "0")
        "LLAMA_METAL" "0") "CUDA_VISIBLE_DEVICES" "-1" := by
  simp [launcherMain, hm, hi]

/-- On the successful path the configuration pair handed to `create_app`
is the one built by `mkServerSettings` and `mkModelSettings`. -/
lemma app_eq (sslK sslC : Option String) (root : String) (h : Host)
    (hm : h.modelFileExists = true) (hi : h.importOk = true) :
    (launcherMain sslK sslC root h).app =
      some (mkServerSettings sslK sslC,
        mkModelSettings (model_path root) h.cpu_count) := by
  simp [launcherMain, hm, hi]

/-- Claim C1: for every detected logical CPU count of at least 1, the
launcher stores `max(cpu_count - 1, 1)` (hence a value that is always at
least 1) as `n_threads` and exactly `cpu_count` as `n_threads_batch` in
the model configuration. -/
theorem C1_thread_pool_sizes (sslK sslC : Option String) (root : String)
    (h : Host) (hm : h.modelFileExists = true) (hi : h.importOk = true)
    (hc : 1 ≤ h.cpu_count) :
    ∃ ss ms, (launcherMain sslK sslC root h).app = some (ss, ms) ∧
      ms.n_threads = max (h.cpu_count - 1) 1 ∧ 1 ≤ ms.n_threads ∧
      ms.n_threads_batch = h.cpu_count := by
  refine ⟨mkServerSettings sslK sslC,
    mkModelSettings (model_path root) h.cpu_count,
    app_eq sslK sslC root h hm hi, rfl, ?_, rfl⟩
  exact le_max_right _ _

/-- Witness for C1 on a host reporting 8 logical CPUs. -/
theorem C1_thread_pool_sizes_witness :
    ∃ ss ms, (launcherMain none none "/app" host8).app = some (ss, ms) ∧
      ms.n_threads = max (4 + 4 - 1) 1 ∧ 1 ≤ ms.n_threads ∧
      ms.n_threads_batch = 4 + 4 :=
  C1_thread_pool_sizes none none "/app" host8 rfl rfl (by decide)

/-- Claim C2: when the model file is absent, the launcher prints the
diagnostic to the error stream and exits with status 1 before acquiring
any resource: the environment is unchanged, no configuration pair is
built, and the trace holds no env-default, app-construction or server-run
event. -/
theorem C2_missing_model_early_exit (sslK sslC : Option String)
    (root : String) (h : Host) (hm : h.modelFileExists = false) :
    (launcherMain sslK sslC root h).events =
      [Event.printErr (missingModelMsg root)] ∧
    (launcherMain sslK sslC root h).exitStatus = some 1 ∧
    (launcherMain sslK sslC root h).finalEnv = h.env ∧
    (launcherMain sslK sslC root h).app = none ∧
    ∀ e ∈ (launcherMain sslK sslC root h).events,
      isGpuEnvDefault e = false ∧ isCreateApp e = false ∧
        isRunServer e = false := by
  refine ⟨?_, ?_, ?_, ?_, ?_⟩ <;>
    simp [launcherMain, hm, isGpuEnvDefault, isCreateApp, isRunServer]

/-- Witness for C2 on a host whose model file is missing. -/
theorem C2_missing_model_early_exit_witness :
    (launcherMain none none "/app"
        { modelFileExists := false, importOk := true, cpu_count := 4,
          env := fun _ => none }).events =
      [Event.printErr (missingModelMsg "/app")] ∧
    (launcherMain none none "/app"
        { modelFileExists := false, importOk := true, cpu_count := 4,
          env := fun _ => none }).exitStatus = some 1 ∧
    (launcherMain none none "/app"
        { modelFileExists := false, importOk := true, cpu_count := 4,
          env := fun _ => none }).finalEnv = (fun _ => none) ∧
    (launcherMain none none "/app"
        { modelFileExists := false, importOk := true, cpu_count := 4,
          env := fun _ => none }).app = none ∧
    ∀ e ∈ (launcherMain none none "/app"
        { modelFileExists := false, importOk := true, cpu_count := 4,
          env := fun _ => none }).events,
      isGpuEnvDefault e = false ∧ isCreateApp e = false ∧
        isRunServer e = false :=
  C2_missing_model_early_exit none none "/app"
    { modelFileExists := false, importOk := true, cpu_count := 4,
      env := fun _ => none } rfl

/-- Claim C3: for every host, the model configuration has `n_gpu_layers`
equal to 0 and `n_ctx` equal to 32768, and the server configuration binds
the loopback address; the universally quantified host shows none of these
depends on detected hardware or on environment variables. -/
theorem C3_fixed_cpu_only_config (sslK sslC : Option String)
    (root : String) (h : Host) (hm : h.modelFileExists = true)
    (hi : h.importOk = true) :
    ∃ ss ms, (launcherMain sslK sslC root h).app = some (ss, ms) ∧
      ms.n_gpu_layers = 0 ∧ ms.n_ctx = 32768 ∧
      ss.host = "127.0.0.1" :=
  ⟨mkServerSettings sslK sslC,
    mkModelSettings (model_path root) h.cpu_count,
    app_eq sslK sslC root h hm hi, rfl, rfl, rfl⟩

/-- Witness for C3 on the concrete 4-CPU host. -/
theorem C3_fixed_cpu_only_config_witness :
    ∃ ss ms, (launcherMain none none "/app" host0).app = some (ss, ms) ∧
      ms.n_gpu_layers = 0 ∧ ms.n_ctx = 32768 ∧
      ss.host = "127.0.0.1" :=
  C3_fixed_cpu_only_config none none "/app" host0 rfl rfl

/-- Claim C4: for every initial environment, each GPU-disabling variable
ends bound to its disabled value when it was absent and keeps its
caller-provided value when present, and every other variable is left
unchanged. -/
theorem C4_env_defaults_frame (sslK sslC : Option String) (root : String)
    (h : Host) (hm : h.modelFileExists = true) (hi : h.importOk = true) :
    gpuDefaultSpec h.env (launcherMain sslK sslC root h).finalEnv
      "LLAMA_CUBLAS" "0" ∧
    gpuDefaultSpec h.env (launcherMain sslK sslC root h).finalEnv
      "LLAMA_METAL" "0" ∧
    gpuDefaultSpec h.env (launcherMain sslK sslC root h).finalEnv
      "CUDA_VISIBLE_DEVICES" "-1" ∧
    ∀ k, k ≠ "LLAMA_CUBLAS" → k ≠ "LLAMA_METAL" →
      k ≠ "CUDA_VISIBLE_DEVICES" →
      (launcherMain sslK sslC root h).finalEnv k = h.env k := by
  rw [finalEnv_eq sslK sslC root h hm hi]
  refine ⟨⟨?_, ?_⟩, ⟨?_, ?_⟩, ⟨?_, ?_⟩, ?_⟩
  · intro ha; simp [setdefault, ha]
  · intro v hv; simp [setdefault, hv]
  · intro ha; simp [setdefault, ha]
  · intro v hv; simp [setdefault, hv]
  · intro ha; simp [setdefault, ha]
  · intro v hv; simp [setdefault, hv]
  · intro k h1 h2 h3
    simp [setdefault, h1, h2, h3]

/-- Witness for C4 on a host whose environment already binds
`LLAMA_METAL`. -/
theorem C4_env_defaults_frame_witness :
    gpuDefaultSpec hostPre.env
      (launcherMain none none "/app" hostPre).finalEnv
      "LLAMA_CUBLAS" "0" ∧
    gpuDefaultSpec hostPre.env
      (launcherMain none none "/app" hostPre).finalEnv
      "LLAMA_METAL" "0" ∧
    gpuDefaultSpec hostPre.env
      (launcherMain none none "/app" hostPre).finalEnv
      "CUDA_VISIBLE_DEVICES" "-1" ∧
    ∀ k, k ≠ "LLAMA_CUBLAS" → k ≠ "LLAMA_METAL" →
      k ≠ "CUDA_VISIBLE_DEVICES" →
      (launcherMain none none "/app" hostPre).finalEnv k =
        hostPre.env k :=
  C4_env_defaults_frame none none "/app" hostPre rfl rfl

/-- Counterexample for claim C5: on a concrete host with the model present
and the library importable, the trace of the launcher performs a
successful inference-library import strictly before the first
GPU-disabling environment default is applied (the `try`-block imports on
lines 27-30 precede the `setdefault` calls on lines 40-42), refuting the
claimed ordering. -/
theorem C5_import_precedes_env_defaults :
    ¬ noInferenceImportBeforeGpuDefaults
        (launcherMain none none "/app" host0).events := by
  unfold noInferenceImportBeforeGpuDefaults
  decide

/-- Claim C5 as amended: the three GPU-disabling environment defaults are
applied before the configuration objects are consumed by app construction
and before the server run, but after the server-library import — the only
events preceding them in the trace are the inference-library imports
themselves. -/
theorem C5_env_defaults_after_import_before_config
    (sslK sslC : Option String) (root : String) (h : Host)
    (hm : h.modelFileExists = true) (hi : h.importOk = true) :
    ((launcherMain sslK sslC root h).events.takeWhile
        (fun e => !(isGpuEnvDefault e))).all isInferenceImport = true ∧
    ((launcherMain sslK sslC root h).events.takeWhile
        (fun e => !(isCreateApp e))).filter isGpuEnvDefault =
      [Event.setEnvDefault "LLAMA_CUBLAS" "0",
       Event.setEnvDefault "LLAMA_METAL" "0",
       Event.setEnvDefault "CUDA_VISIBLE_DEVICES" "-1"] ∧
    (((launcherMain sslK sslC root h).events.takeWhile
        (fun e => !(isRunServer e))).filter isGpuEnvDefault).length
      = 3 := by
  refine ⟨?_, ?_, ?_⟩ <;>
    simp [launcherMain, hm, hi, isGpuEnvDefault, isInferenceImport,
      isCreateApp, isRunServer, List.takeWhile, List.filter]

/-- Witness for the amended C5 on the concrete 4-CPU host. -/
theorem C5_env_defaults_after_import_before_config_witness :
    ((launcherMain none none "/app" host0).events.takeWhile
        (fun e => !(isGpuEnvDefault e))).all isInferenceImport = true ∧
    ((launcherMain none none "/app" host0).events.takeWhile
        (fun e => !(isCreateApp e))).filter isGpuEnvDefault =
      [Event.setEnvDefault "LLAMA_CUBLAS" "0",
       Event.setEnvDefault "LLAMA_METAL" "0",
       Event.setEnvDefault "CUDA_VISIBLE_DEVICES" "-1"] ∧
    (((launcherMain none none "/app" host0).events.takeWhile
        (fun e => !(isRunServer e))).filter isGpuEnvDefault).length
      = 3 :=
  C5_env_defaults_after_import_before_config none none "/app" host0
    rfl rfl

/-- Claim C6: when the model file exists but the server-library import
fails, the launcher exits with status 1 and the diagnostic printed to the
error stream contains the pip install remediation command. -/
theorem C6_missing_dependency_message (sslK sslC : Option String)
    (root : String) (h : Host) (hm : h.modelFileExists = true)
    (hi : h.importOk = false) :
    (launcherMain sslK sslC root h).exitStatus = some 1 ∧
    ∃ m, Event.printErr m ∈ (launcherMain sslK sslC root h).events ∧
      ∃ pre post, m = pre ++ pipInstallCmd ++ post := by
  refine ⟨by simp [launcherMain, hm, hi], missingDepMsg,
    by simp [launcherMain, hm, hi],
    "[!] Missing dependency: llama-cpp-python with server extras.\n" ++
      "    Install it with: ", "", by decide⟩

/-- Witness for C6 on a host whose library import fails. -/
theorem C6_missing_dependency_message_witness :
    (launcherMain none none "/app"
        { modelFileExists := true, importOk := false, cpu_count := 4,
          env := fun _ => none }).exitStatus = some 1 ∧
    ∃ m, Event.printErr m ∈ (launcherMain none none "/app"
        { modelFileExists := true, importOk := false, cpu_count := 4,
          env := fun _ => none }).events ∧
      ∃ pre post, m = pre ++ pipInstallCmd ++ post :=
  C6_missing_dependency_message none none "/app"
    { modelFileExists := true, importOk := false, cpu_count := 4,
      env := fun _ => none } rfl rfl

/-- Claim C7: the server configuration constructed by the launcher always
has `interrupt_requests` enabled, for every host environment. -/
theorem C7_interrupt_requests_enabled (sslK sslC : Option String)
    (root : String) (h : Host) (hm : h.modelFileExists = true)
    (hi : h.importOk = true) :
    ∃ ss ms, (launcherMain sslK sslC root h).app = some (ss, ms) ∧
      ss.interrupt_requests = true :=
  ⟨mkServerSettings sslK sslC,
    mkModelSettings (model_path root) h.cpu_count,
    app_eq sslK sslC root h hm hi, rfl⟩

/-- Witness for C7 on the concrete 4-CPU host. -/
theorem C7_interrupt_requests_enabled_witness :
    ∃ ss ms, (launcherMain none none "/app" host0).app = some (ss, ms) ∧
      ss.interrupt_requests = true :=
  C7_interrupt_requests_enabled none none "/app" host0 rfl rfl

/-- Claim C8: the cache policy of the model configuration is always cache
enabled, storage medium `ram`, and capacity `4 <<< 30` which equals
4294967296 bytes, independent of the host. -/
theorem C8_cache_policy (sslK sslC : Option String) (root : String)
    (h : Host) (hm : h.modelFileExists = true) (hi : h.importOk = true) :
    ∃ ss ms, (launcherMain sslK sslC root h).app = some (ss, ms) ∧
      ms.cache = true ∧ ms.cache_type = "ram" ∧
      ms.cache_size = 4294967296 :=
  ⟨mkServerSettings sslK sslC,
    mkModelSettings (model_path root) h.cpu_count,
    app_eq sslK sslC root h hm hi, rfl, rfl, rfl⟩

/-- Witness for C8 on the concrete 4-CPU host. -/
theorem C8_cache_policy_witness :
    ∃ ss ms, (launcherMain none none "/app" host0).app = some (ss, ms) ∧
      ms.cache = true ∧ ms.cache_type = "ram" ∧
      ms.cache_size = 4294967296 :=
  C8_cache_policy none none "/app" host0 rfl rfl

/-- Claim C9: the fixed bind endpoint is host `127.0.0.1` and port 54546,
and the HTTP server runner is invoked with the host, port and TLS
key/certificate values read back from the constructed server-settings
object (the TLS defaults are universally quantified, so the run arguments
track the settings object rather than independent constants). -/
theorem C9_bind_endpoint_agreement (sslK sslC : Option String)
    (root : String) (h : Host) (hm : h.modelFileExists = true)
    (hi : h.importOk = true) :
    ∃ ss ms, (launcherMain sslK sslC root h).app = some (ss, ms) ∧
      ss.host = "127.0.0.1" ∧ ss.port = 54546 ∧
      Event.runServer ss.host ss.port "info" ss.ssl_keyfile
          ss.ssl_certfile
        ∈ (launcherMain sslK sslC root h).events := by
  refine ⟨mkServerSettings sslK sslC,
    mkModelSettings (model_path root) h.cpu_count,
    app_eq sslK sslC root h hm hi, rfl, rfl, ?_⟩
  simp [launcherMain, hm, hi]

/-- Witness for C9 with nontrivial TLS defaults, on an 8-CPU host. -/
theorem C9_bind_endpoint_agreement_witness :
    ∃ ss ms, (launcherMain (some "k.pem") (some "c.pem") "/app"
        host8).app = some (ss, ms) ∧
      ss.host = "127.0.0.1" ∧ ss.port = 54546 ∧
      Event.runServer ss.host ss.port "info" ss.ssl_keyfile
          ss.ssl_certfile
        ∈ (launcherMain (some "k.pem") (some "c.pem") "/app"
            host8).events :=
  C9_bind_endpoint_agreement (some "k.pem") (some "c.pem") "/app" host8
    rfl rfl

/-- Claim C10: with the model present and the library importable, the
configuration pair is a function of the detected CPU count alone — two
hosts with equal counts (arbitrary environments) yield identical
configuration pairs, the pair is exactly the one `mkServerSettings` and
`mkModelSettings` compute from the count, and every model-settings field
other than `n_threads` and `n_threads_batch` is independent of the
count. -/
theorem C10_config_determinism (sslK sslC : Option String)
    (root : String) (h1 h2 : Host) (hm1 : h1.modelFileExists = true)
    (hi1 : h1.importOk = true) (hm2 : h2.modelFileExists = true)
    (hi2 : h2.importOk = true) (hc : h1.cpu_count = h2.cpu_count) :
    (launcherMain sslK sslC root h1).app =
      (launcherMain sslK sslC root h2).app ∧
    (launcherMain sslK sslC root h1).app =
      some (mkServerSettings sslK sslC,
        mkModelSettings (model_path root) h1.cpu_count) ∧
    ∀ c q : Nat,
      (mkModelSettings (model_path root) c).model =
        (mkModelSettings (model_path root) q).model ∧
      (mkModelSettings (model_path root) c).model_alias =
        (mkModelSettings (model_path root) q).model_alias ∧
      (mkModelSettings (model_path root) c).chat_format =
        (mkModelSettings (model_path root) q).chat_format ∧
      (mkModelSettings (model_path root) c).n_ctx =
        (mkModelSettings (model_path root) q).n_ctx ∧
      (mkModelSettings (model_path root) c).n_gpu_layers =
        (mkModelSettings (model_path root) q).n_gpu_layers ∧
      (mkModelSettings (model_path root) c).n_batch =
        (mkModelSettings (model_path root) q).n_batch ∧
      (mkModelSettings (model_path root) c).n_ubatch =
        (mkModelSettings (model_path root) q).n_ubatch ∧
      (mkModelSettings (model_path root) c).use_mmap =
        (mkModelSettings (model_path root) q).use_mmap ∧
      (mkModelSettings (model_path root) c).use_mlock =
        (mkModelSettings (model_path root) q).use_mlock ∧
      (mkModelSettings (model_path root) c).cache =
        (mkModelSettings (model_path root) q).cache ∧
      (mkModelSettings (model_path root) c).cache_type =
        (mkModelSettings (model_path root) q).cache_type ∧
      (mkModelSettings (model_path root) c).cache_size =
        (mkModelSettings (model_path root) q).cache_size ∧
      (mkModelSettings (model_path root) c).offload_kqv =
        (mkModelSettings (model_path root) q).offload_kqv ∧
      (mkModelSettings (model_path root) c).flash_attn =
        (mkModelSettings (model_path root) q).flash_attn ∧
      (mkModelSettings (model_path root) c).logits_all =
        (mkModelSettings (model_path root) q).logits_all ∧
      (mkModelSettings (model_path root) c).verbose =
        (mkModelSettings (model_path root) q).verbose := by
  refine ⟨?_, app_eq sslK sslC root h1 hm1 hi1, ?_⟩
  · rw [app_eq sslK sslC root h1 hm1 hi1,
      app_eq sslK sslC root h2 hm2 hi2, hc]
  · intro c q
    exact ⟨rfl, rfl, rfl, rfl, rfl, rfl, rfl, rfl, rfl, rfl, rfl, rfl,
      rfl, rfl, rfl, rfl⟩

/-- Witness for C10: two 4-CPU hosts, one with an empty environment and
one with a pre-populated environment, yield the same configuration. -/
theorem C10_config_determinism_witness :
    (launcherMain none none "/app" host0).app =
      (launcherMain none none "/app" hostPre).app ∧
    (launcherMain none none "/app" host0).app =
      some (mkServerSettings none none,
        mkModelSettings (model_path "/app") host0.cpu_count) ∧
    ∀ c q : Nat,
      (mkModelSettings (model_path "/app") c).model =
        (mkModelSettings (model_path "/app") q).model ∧
      (mkModelSettings (model_path "/app") c).model_alias =
        (mkModelSettings (model_path "/app") q).model_alias ∧
      (mkModelSettings (model_path "/app") c).chat_format =
        (mkModelSettings (model_path "/app") q).chat_format ∧
      (mkModelSettings (model_path "/app") c).n_ctx =
        (mkModelSettings (model_path "/app") q).n_ctx ∧
      (mkModelSettings (model_path "/app") c).n_gpu_layers =
        (mkModelSettings (model_path "/app") q).n_gpu_layers ∧
      (mkModelSettings (model_path "/app") c).n_batch =
        (mkModelSettings (model_path "/app") q).n_batch ∧
      (mkModelSettings (model_path "/app") c).n_ubatch =
        (mkModelSettings (model_path "/app") q).n_ubatch ∧
      (mkModelSettings (model_path "/app") c).use_mmap =
        (mkModelSettings (model_path "/app") q).use_mmap ∧
      (mkModelSettings (model_path "/app") c).use_mlock =
        (mkModelSettings (model_path "/app") q).use_mlock ∧
      (mkModelSettings (model_path "/app") c).cache =
        (mkModelSettings (model_path "/app") q).cache ∧
      (mkModelSettings (model_path "/app") c).cache_type =
        (mkModelSettings (model_path "/app") q).cache_type ∧
      (mkModelSettings (model_path "/app") c).cache_size =
        (mkModelSettings (model_path "/app") q).cache_size ∧
      (mkModelSettings (model_path "/app") c).offload_kqv =
        (mkModelSettings (model_path "/app") q).offload_kqv ∧
      (mkModelSettings (model_path "/app") c).flash_attn =
        (mkModelSettings (model_path "/app") q).flash_attn ∧
      (mkModelSettings (model_path "/app") c).logits_all =
        (mkModelSettings (model_path "/app") q).logits_all ∧
      (mkModelSettings (model_path "/app") c).verbose =
        (mkModelSettings (model_path "/app") q).verbose :=
  C10_config_determinism none none "/app" host0 hostPre rfl rfl rfl rfl
    rfl
